import Mathlib

/-!
Shallow embedding of `src/ags_to_postgis.py` (GTornero/ags_to_postgis).

External collaborators are modelled as explicit parameters:
* the EPSG registry (`pyproj.database.get_codes("EPSG", "CRS")`) as a list of
  code strings, membership tested on `str(epsg)` exactly as the source does;
* the geodetic transformer factory (`pyproj.Transformer.from_crs`) as a
  function `Int → Int → Point → Point`;
* the parsed AGS document (`AGS4.AGS4_to_dataframe` followed by
  `AGS4.convert_to_numeric`, both external parser calls) as an ordered list
  of (table name, rows of column/value pairs);
* the PostGIS destination as an association list of (table name, stored
  rows), with `has_table`, the SQL `MAX` query and append-mode writes
  modelled directly on that state.

Coordinates are embedded as exact integers standing in for Python floats:
every property proved here concerns which arithmetic is performed and in
which order (offsets, reprojection, ordering of steps), not floating-point
representation or rounding.
-/

namespace AgsToPostgis

/-- The numeric type of the coordinate cells (exact stand-in for the Python
floats of the source). -/
abbrev Coord := Int

/-- A scalar cell value of a parsed table (mixed numeric/text), plus the
geometry values that the pipeline itself produces. -/
inductive Value where
  | int : Int → Value
  | num : Coord → Value
  | text : String → Value
  | point : Coord → Coord → Value
deriving DecidableEq

/-- A row of a DataFrame: an ordered mapping from column name to value. -/
abbrev Row := List (String × Value)

/-- A 2D point (shapely `Point`). -/
abbrev Point := Coord × Coord

/-- Python `str.lower` on the ASCII column and table names. -/
def strLower (s : String) : String :=
  ⟨s.data.map Char.toLower⟩

/-- Reading one cell, `df[name]` for a single row. -/
def lookupCol (name : String) (r : Row) : Option Value :=
  (r.find? (fun p => p.1 == name)).map (fun p => p.2)

/-- Column assignment `df[name] = v` restricted to one row: overwrite every
occurrence of the column if present (pandas assigns the whole column), else
add the column at the end. -/
def setCol (name : String) (v : Value) (r : Row) : Row :=
  if r.any (fun p => p.1 == name) then
    r.map (fun p => if p.1 == name then (p.1, v) else p)
  else r ++ [(name, v)]

/-- `df.columns = [x.lower() for x in df.columns]` for one row. -/
def lowerRow (r : Row) : Row :=
  r.map (fun p => (strLower p.1, p.2))

/-- `df["campaign_id"] = campaign_id` for one row. -/
def stampRow (cid : Int) (r : Row) : Row :=
  setCol "campaign_id" (Value.int cid) r

/-- The two normalisation lines at the top of the per-table loop body:
lower-case every column name, then stamp the campaign identifier. -/
def normalizeAndStamp (cid : Int) (tbl : List Row) : List Row :=
  (tbl.map lowerRow).map (stampRow cid)

/-- A numeric read of one cell of `df[["loca_locx", "loca_locy"]]`. -/
def getNum (name : String) (r : Row) : Option Coord :=
  match lookupCol name r with
  | some (Value.num q) => some q
  | some (Value.int n) => some n
  | _ => none

/-- The point-construction loop over the LOCA rows:
`Point(point[0], point[1] + 10000)` for each row, in row order. `none`
models the KeyError/TypeError raised when a coordinate column is missing or
non-numeric for some row. -/
def buildPoints : List Row → Option (List Point)
  | [] => some []
  | r :: rs =>
    match getNum "loca_locx" r, getNum "loca_locy" r, buildPoints rs with
    | some x, some y, some ps => some ((x, y + 10000) :: ps)
    | _, _, _ => none

/-- `_transform_point_list`: apply the transformer to every point, in order. -/
def _transform_point_list (points : List Point) (transformer : Point → Point) :
    List Point :=
  points.map transformer

/-- `gp.GeoDataFrame(df).set_geometry(points, ...)` then
`rename_geometry("geom")`: attach the i-th point as the `geom` column of the
i-th row. -/
def attachGeom (rows : List Row) (pts : List Point) : List Row :=
  (rows.zip pts).map (fun rp => setCol "geom" (Value.point rp.2.1 rp.2.2) rp.1)

/-- The destination schema: the tables present in it, each with its rows. -/
structure DBState where
  tables : List (String × List Row)
deriving DecidableEq

/-- `inspect(engine).has_table(name, schema=schema)`. -/
def has_table (db : DBState) (name : String) : Bool :=
  db.tables.any (fun p => p.1 == name)

/-- The rows currently stored in a destination table (empty when absent). -/
def getRows (db : DBState) (name : String) : List Row :=
  ((db.tables.find? (fun p => p.1 == name)).map (fun p => p.2)).getD []

/-- `to_sql` / `to_postgis` with `if_exists="append"`: append the rows to the
named table, creating the table when it is absent. -/
def dbAppend (db : DBState) (name : String) (new : List Row) : DBState :=
  if db.tables.any (fun p => p.1 == name) then
    ⟨db.tables.map (fun p => if p.1 == name then (p.1, p.2 ++ new) else p)⟩
  else ⟨db.tables ++ [(name, new)]⟩

/-- SQL `MAX` over the non-null values of a column: `NULL` (none) when there
is nothing to aggregate. -/
def sqlMax : List Int → Option Int
  | [] => none
  | n :: ns =>
    match sqlMax ns with
    | none => some n
    | some m => some (max n m)

/-- The integer `campaign_id` values stored in a table's rows. -/
def storedCampaignIds (rows : List Row) : List Int :=
  rows.filterMap (fun r =>
    match lookupCol "campaign_id" r with
    | some (Value.int n) => some n
    | _ => none)

/-- `select([func.max(table.columns.campaign_id)])` evaluated against the
stored rows of the `loca` table. -/
def maxCampaignId (rows : List Row) : Option Int :=
  sqlMax (storedCampaignIds rows)

/-- The errors the pipeline can raise: the `ValueError` for an unrecognised
EPSG code (carrying the offending code, as the message text does), the
`TypeError` from `results[0][0] + 1` when the `MAX` query returns NULL, and
the KeyError/TypeError from missing or non-numeric LOCA coordinate columns. -/
inductive AgsError where
  | invalidEpsg : Option Int → AgsError
  | nullArith : AgsError
  | malformedLoca : AgsError
deriving DecidableEq

/-- Python `str(epsg)` for an `int | None` argument. -/
def pyStr : Option Int → String
  | none => "None"
  | some n => toString n

/-- `_is_epsg`: membership of `str(epsg)` in the EPSG registry. -/
def _is_epsg (registry : List String) (epsg : Option Int) : Bool :=
  registry.contains (pyStr epsg)

/-- The campaign-id block of `ags_to_postgis` (source lines 84–97): `1` when
no `loca` table exists in the schema; otherwise `max(campaign_id) + 1`,
where a NULL maximum makes `results[0][0] + 1` the `None + 1` `TypeError`.
Faithfully to the source, this block reassigns the `campaign_id` local on
every path, so a caller-supplied value never survives it. -/
def allocate_campaign_id (db : DBState) : Except AgsError Int :=
  if !(has_table db "loca") then Except.ok 1
  else
    match maxCampaignId (getRows db "loca") with
    | some m => Except.ok (m + 1)
    | none => Except.error AgsError.nullArith

/-- The `reproject` flag and `crs_transformer` construction (source lines
69–75): a transformer exists exactly when a source code is supplied and
differs from the target code; otherwise no reprojector is built and its
absence is the identity case. -/
def mkReprojector (mkTransformer : Int → Int → Point → Point)
    (source_epsg : Option Int) (target_epsg : Int) : Option (Point → Point) :=
  match source_epsg with
  | none => none
  | some s => if s == target_epsg then none else some (mkTransformer s target_epsg)

/-- The caller-visible configuration of one import (the `target_epsg`,
`source_epsg` and `campaign_id` parameters of `ags_to_postgis`). -/
structure Config where
  target_epsg : Int
  source_epsg : Option Int
  campaign_id : Option Int
deriving DecidableEq

/-- The `if reproject: points = _transform_point_list(points, crs_transformer)`
step: reprojection runs exactly when a reprojector was constructed; its
absence is the identity case. -/
def applyReprojector (reprojector : Option (Point → Point))
    (points : List Point) : List Point :=
  match reprojector with
  | some tr => _transform_point_list points tr
  | none => points

/-- One iteration of the per-table loop (source lines 99–115): normalise and
stamp the rows; the table keyed exactly `"LOCA"` gains geometry (offset then
optional reprojection) and is written spatially under its lower-cased name;
any other table is appended as a plain attribute table under its
lower-cased name. -/
def writeOne (reprojector : Option (Point → Point)) (cid : Int)
    (key : String) (tbl : List Row) (db : DBState) : Except AgsError DBState :=
  if key == "LOCA" then
    match buildPoints (normalizeAndStamp cid tbl) with
    | none => Except.error AgsError.malformedLoca
    | some points =>
      Except.ok (dbAppend db (strLower key)
        (attachGeom (normalizeAndStamp cid tbl)
          (applyReprojector reprojector points)))
  else
    Except.ok (dbAppend db (strLower key) (normalizeAndStamp cid tbl))

/-- The per-table loop over the whole document, in document order, stopping
at the first error with the destination left as already written. -/
def writeTables (reprojector : Option (Point → Point)) (cid : Int) :
    List (String × List Row) → DBState → Except AgsError DBState
  | [], db => Except.ok db
  | (key, tbl) :: rest, db =>
    match writeOne reprojector cid key tbl db with
    | Except.error e => Except.error e
    | Except.ok db' => writeTables reprojector cid rest db'

/-- `ags_to_postgis`: EPSG validation first, then reprojector construction,
campaign-identifier resolution once, then the per-table write loop.
`registry`, `mkTransformer`, `doc` and `db` stand for the external
collaborators described in the module header. -/
def ags_to_postgis (registry : List String)
    (mkTransformer : Int → Int → Point → Point)
    (doc : List (String × List Row)) (cfg : Config) (db : DBState) :
    Except AgsError DBState :=
  if !(_is_epsg registry cfg.source_epsg) && cfg.source_epsg.isSome then
    Except.error (AgsError.invalidEpsg cfg.source_epsg)
  else if !(_is_epsg registry (some cfg.target_epsg)) then
    Except.error (AgsError.invalidEpsg (some cfg.target_epsg))
  else
    match allocate_campaign_id db with
    | Except.error e => Except.error e
    | Except.ok cid =>
      writeTables (mkReprojector mkTransformer cfg.source_epsg cfg.target_epsg)
        cid doc db

/-- The empty destination schema. -/
def emptyDB : DBState := ⟨[]⟩

/-- The identity transformer factory, for concrete runs where no
reprojection happens. -/
def idT : Int → Int → Point → Point := fun _ _ p => p

/-- A concrete LOCA table with one row. -/
def demoLocaTbl : List Row :=
  [[("LOCA_LOCX", Value.num 100), ("LOCA_LOCY", Value.num 200)]]

/-- A small concrete document: one LOCA row and one SAMP row (the scenario
used by the spec's testable properties). -/
def demoDoc : List (String × List Row) :=
  [("LOCA", demoLocaTbl), ("SAMP", [[("SAMP_ID", Value.text "A1")]])]

/-- A document holding only the SAMP table. -/
def demoDocSamp : List (String × List Row) :=
  [("SAMP", [[("SAMP_ID", Value.text "A1")]])]

/-- A registry recognising only code 27700. -/
def demoRegistry : List String := ["27700"]

/-- Target 27700, no source code, no explicit campaign id. -/
def demoCfg : Config := ⟨27700, none, none⟩

/-- A destination whose `loca` layer holds one row with campaign id 7. -/
def dbLoca7 : DBState := ⟨[("loca", [[("campaign_id", Value.int 7)]])]⟩

/-- A destination whose `loca` layer exists but holds zero rows. -/
def dbLocaEmpty : DBState := ⟨[("loca", [])]⟩

/-- The concrete demo run against the empty destination. -/
def demoRun : Except AgsError DBState :=
  ags_to_postgis demoRegistry idT demoDoc demoCfg emptyDB

/-- The destination state the demo run produces. -/
def demoOut : DBState :=
  match demoRun with
  | Except.ok d => d
  | Except.error _ => emptyDB

/-- The concrete demo run against the destination that already holds a
`loca` layer with campaign id 7. -/
def demoRun7 : Except AgsError DBState :=
  ags_to_postgis demoRegistry idT demoDoc demoCfg dbLoca7

/-- The destination state that run produces. -/
def demoOut7 : DBState :=
  match demoRun7 with
  | Except.ok d => d
  | Except.error _ => emptyDB

instance {α β : Type} [DecidableEq α] [DecidableEq β] : DecidableEq (Except α β) :=
  fun a b =>
  match a, b with
  | Except.ok x, Except.ok y =>
    if h : x = y then isTrue (by rw [h]) else isFalse (by intro hc; cases hc; exact h rfl)
  | Except.error x, Except.error y =>
    if h : x = y then isTrue (by rw [h]) else isFalse (by intro hc; cases hc; exact h rfl)
  | Except.ok _, Except.error _ => isFalse (by intro hc; cases hc)
  | Except.error _, Except.ok _ => isFalse (by intro hc; cases hc)

/-! ## Helper lemmas about the row and destination-state operations -/

theorem comp_fst_overwrite (name test : String) (v : Value) :
    ((fun p : String × Value => p.1 == test) ∘
        fun p => if p.1 == name then (p.1, v) else p)
      = fun p : String × Value => p.1 == test := by
  funext p
  by_cases hp : (p.1 == name) = true
  · simp [Function.comp, hp]
  · simp [Function.comp, hp]

theorem lookupCol_setCol_self (name : String) (v : Value) (r : Row) :
    lookupCol name (setCol name v r) = some v := by
  unfold setCol
  by_cases h : r.any (fun p => p.1 == name) = true
  · rw [if_pos h]
    unfold lookupCol
    rw [List.find?_map, comp_fst_overwrite]
    have hs : (r.find? (fun p => p.1 == name)).isSome = true :=
      List.find?_isSome.mpr (List.any_eq_true.mp h)
    cases hf : r.find? (fun p => p.1 == name) with
    | none => rw [hf] at hs; cases hs
    | some p =>
      have hp : p.1 = name := by simpa using List.find?_some hf
      simp [hp]
  · rw [if_neg h]
    have hfalse : r.any (fun p => p.1 == name) = false := Bool.eq_false_iff.mpr h
    unfold lookupCol
    rw [List.find?_append, List.find?_eq_none.mpr (List.any_eq_false.mp hfalse)]
    simp [List.find?_cons]

theorem lookupCol_setCol_other (name other : String) (v : Value) (r : Row)
    (hne : other ≠ name) :
    lookupCol other (setCol name v r) = lookupCol other r := by
  unfold setCol
  by_cases h : r.any (fun p => p.1 == name) = true
  · rw [if_pos h]
    unfold lookupCol
    rw [List.find?_map, comp_fst_overwrite]
    cases hf : r.find? (fun p => p.1 == other) with
    | none => simp
    | some p =>
      have hp : p.1 = other := by simpa using List.find?_some hf
      simp [hp, hne]
  · rw [if_neg h]
    unfold lookupCol
    rw [List.find?_append]
    have hnv : (((name, v) : String × Value).1 == other) = false := by
      simpa using fun hc => hne hc.symm
    cases hf : r.find? (fun p => p.1 == other) with
    | none => simp [hf, List.find?_cons, hnv]
    | some p => simp [hf]

/-- Every entry of the overwritten column holds the new value. -/
theorem setCol_entries (name : String) (v : Value) (r : Row) :
    ((setCol name v r).all fun p => p.1 != name || p.2 == v) = true := by
  unfold setCol
  by_cases h : r.any (fun p => p.1 == name) = true
  · rw [if_pos h]
    rw [List.all_eq_true]
    intro p hp
    obtain ⟨q, _, rfl⟩ := List.mem_map.mp hp
    by_cases hq : (q.1 == name) = true
    · simp [hq]
    · simp [hq, bne]
  · rw [if_neg h]
    have hfalse : r.any (fun p => p.1 == name) = false := Bool.eq_false_iff.mpr h
    rw [List.all_eq_true]
    intro p hp
    rcases List.mem_append.mp hp with hp | hp
    · have hq : ¬((p.1 == name) = true) := List.any_eq_false.mp hfalse p hp
      simp [hq, bne]
    · have : p = (name, v) := by simpa using hp
      subst this
      simp

/-- Rows produced by `normalizeAndStamp` carry the stamped campaign id. -/
theorem normalizeAndStamp_campaign (cid : Int) (tbl : List Row) :
    ∀ r ∈ normalizeAndStamp cid tbl,
      lookupCol "campaign_id" r = some (Value.int cid) := by
  intro r hr
  obtain ⟨r₀, _, rfl⟩ := List.mem_map.mp hr
  exact lookupCol_setCol_self "campaign_id" (Value.int cid) r₀

/-- Membership in `attachGeom`: every produced row is a normalised row with
a `geom` column set on top. -/
theorem mem_attachGeom {r : Row} {rows : List Row} {pts : List Point}
    (h : r ∈ attachGeom rows pts) :
    ∃ r₀ ∈ rows, ∃ p : Point, r = setCol "geom" (Value.point p.1 p.2) r₀ := by
  unfold attachGeom at h
  obtain ⟨⟨r₀, p⟩, hmem, rfl⟩ := List.mem_map.mp h
  exact ⟨r₀, (List.of_mem_zip hmem).1, p, rfl⟩

theorem comp_fst_tableUpdate (name test : String) (new : List Row) :
    ((fun p : String × List Row => p.1 == test) ∘
        fun p => if p.1 == name then (p.1, p.2 ++ new) else p)
      = fun p : String × List Row => p.1 == test := by
  funext p
  by_cases hp : (p.1 == name) = true
  · simp [Function.comp, hp]
  · simp [Function.comp, hp]

/-- `dbAppend` appends to the named table and leaves every other table
untouched. -/
theorem getRows_dbAppend (db : DBState) (name : String) (new : List Row)
    (n : String) :
    getRows (dbAppend db name new) n =
      if n = name then getRows db n ++ new else getRows db n := by
  unfold dbAppend
  by_cases h : db.tables.any (fun p => p.1 == name) = true
  · rw [if_pos h]
    unfold getRows
    rw [List.find?_map, comp_fst_tableUpdate]
    by_cases hn : n = name
    · subst hn
      have hs : (db.tables.find? (fun p => p.1 == n)).isSome = true :=
        List.find?_isSome.mpr (List.any_eq_true.mp h)
      cases hf : db.tables.find? (fun p => p.1 == n) with
      | none => rw [hf] at hs; cases hs
      | some p =>
        have hp : p.1 = n := by simpa using List.find?_some hf
        simp [hp]
    · cases hf : db.tables.find? (fun p => p.1 == n) with
      | none => simp [hn]
      | some p =>
        have hp : p.1 = n := by simpa using List.find?_some hf
        simp [hp, hn]
  · rw [if_neg h]
    have hfalse : db.tables.any (fun p => p.1 == name) = false := Bool.eq_false_iff.mpr h
    have hnone : db.tables.find? (fun p => p.1 == name) = none :=
      List.find?_eq_none.mpr (List.any_eq_false.mp hfalse)
    unfold getRows
    rw [List.find?_append]
    by_cases hn : n = name
    · subst hn
      simp [hnone, List.find?_cons]
    · have hnv : (((name, new) : String × List Row).1 == n) = false := by
        simpa using fun hc => hn hc.symm
      cases hf : db.tables.find? (fun p => p.1 == n) with
      | none => simp [hf, List.find?_cons, hnv, hn]
      | some p => simp [hf, hn]

/-- Any successful single-table write only appends rows, and every appended
row carries the campaign identifier that was stamped. -/
theorem writeOne_ok (repro : Option (Point → Point)) (cid : Int) (key : String)
    (tbl : List Row) (db db' : DBState)
    (h : writeOne repro cid key tbl db = Except.ok db') :
    ∀ n, ∃ new, getRows db' n = getRows db n ++ new ∧
      ∀ r ∈ new, lookupCol "campaign_id" r = some (Value.int cid) := by
  intro n
  unfold writeOne at h
  by_cases hk : (key == "LOCA") = true
  · rw [if_pos hk] at h
    cases hb : buildPoints (normalizeAndStamp cid tbl) with
    | none => rw [hb] at h; cases h
    | some points =>
      rw [hb] at h
      have hdb : db' = dbAppend db (strLower key)
          (attachGeom (normalizeAndStamp cid tbl)
            (applyReprojector repro points)) := by
        cases h
        rfl
      subst hdb
      rw [getRows_dbAppend]
      by_cases hn : n = strLower key
      · rw [if_pos hn]
        refine ⟨_, rfl, ?_⟩
        intro r hr
        obtain ⟨r₀, hr₀, p, rfl⟩ := mem_attachGeom hr
        rw [lookupCol_setCol_other "geom" "campaign_id" _ _ (by decide)]
        exact normalizeAndStamp_campaign cid tbl r₀ hr₀
      · rw [if_neg hn]
        exact ⟨[], by simp, by simp⟩
  · rw [if_neg hk] at h
    have hdb : db' = dbAppend db (strLower key) (normalizeAndStamp cid tbl) := by
      cases h
      rfl
    subst hdb
    rw [getRows_dbAppend]
    by_cases hn : n = strLower key
    · rw [if_pos hn]
      exact ⟨_, rfl, normalizeAndStamp_campaign cid tbl⟩
    · rw [if_neg hn]
      exact ⟨[], by simp, by simp⟩

/-- Any successful run of the per-table loop only appends rows, and every
appended row carries the one campaign identifier given to the loop. -/
theorem writeTables_ok (repro : Option (Point → Point)) (cid : Int) :
    ∀ (doc : List (String × List Row)) (db db' : DBState),
      writeTables repro cid doc db = Except.ok db' →
      ∀ n, ∃ new, getRows db' n = getRows db n ++ new ∧
        ∀ r ∈ new, lookupCol "campaign_id" r = some (Value.int cid) := by
  intro doc
  induction doc with
  | nil =>
    intro db db' h n
    have hdb : db' = db := by
      simp only [writeTables] at h
      cases h
      rfl
    subst hdb
    exact ⟨[], by simp, by simp⟩
  | cons kt rest ih =>
    intro db db' h n
    obtain ⟨key, tbl⟩ := kt
    simp only [writeTables] at h
    cases hw : writeOne repro cid key tbl db with
    | error e => rw [hw] at h; cases h
    | ok dbm =>
      rw [hw] at h
      obtain ⟨new1, e1, p1⟩ := writeOne_ok repro cid key tbl db dbm hw n
      obtain ⟨new2, e2, p2⟩ := ih dbm db' h n
      refine ⟨new1 ++ new2, ?_, ?_⟩
      · rw [e2, e1, List.append_assoc]
      · intro r hr
        rcases List.mem_append.mp hr with hr | hr
        · exact p1 r hr
        · exact p2 r hr

/-- Pointwise description of the point-construction loop: the i-th point is
built from the i-th row's coordinates as `(x, y + 10000)`. -/
theorem buildPoints_get :
    ∀ (rows : List Row) (pts : List Point), buildPoints rows = some pts →
      ∀ (i : Nat) (r : Row) (x y : Coord), rows[i]? = some r →
        getNum "loca_locx" r = some x → getNum "loca_locy" r = some y →
        pts[i]? = some (x, y + 10000) := by
  intro rows
  induction rows with
  | nil =>
    intro pts h i r x y hr hx hy
    simp at hr
  | cons r0 rs ih =>
    intro pts h i r x y hr hx hy
    simp only [buildPoints] at h
    cases hx0 : getNum "loca_locx" r0 with
    | none => rw [hx0] at h; cases h
    | some x0 =>
      cases hy0 : getNum "loca_locy" r0 with
      | none => rw [hx0, hy0] at h; cases h
      | some y0 =>
        cases hb0 : buildPoints rs with
        | none => rw [hx0, hy0, hb0] at h; cases h
        | some ps =>
          rw [hx0, hy0, hb0] at h
          have hpts : pts = (x0, y0 + 10000) :: ps := by
            cases h
            rfl
          subst hpts
          cases i with
          | zero =>
            have hr0 : r0 = r := by simpa using hr
            subst hr0
            rw [hx0] at hx
            rw [hy0] at hy
            cases hx
            cases hy
            simp
          | succ j =>
            have hrj : rs[j]? = some r := by simpa using hr
            simpa using ih ps hb0 j r x y hrj hx hy

/-! ## The claims -/

/-- Claim C1 (code bug in the source): the caller-supplied explicit campaign
identifier is NOT used — `ags_to_postgis` never reads its `campaign_id`
parameter (both branches of the `loca`-existence check reassign it), so the
result is identical whatever value is passed, and a run with an explicit
`42` against an empty destination stamps every written row with the derived
identifier `1` instead of `42`. -/
theorem explicit_campaign_id_ignored :
    (∀ (registry : List String) (mkT : Int → Int → Point → Point)
        (doc : List (String × List Row)) (cfg : Config) (db : DBState)
        (c : Option Int),
      ags_to_postgis registry mkT doc { cfg with campaign_id := c } db
        = ags_to_postgis registry mkT doc { cfg with campaign_id := none } db)
    ∧ (ags_to_postgis demoRegistry idT demoDocSamp
          { target_epsg := 27700, source_epsg := none, campaign_id := some 42 }
          emptyDB).map
        (fun d => (getRows d "samp").map (lookupCol "campaign_id"))
        = Except.ok [some (Value.int 1)] := by
  constructor
  · intro registry mkT doc cfg db c
    rfl
  · decide

/-- Claim C2 (code bug in the source): when the `loca` layer exists with
zero rows, the `MAX(campaign_id)` query returns NULL and the allocation
block evaluates `None + 1`, raising a `TypeError`, instead of allocating a
defined identifier; the whole import faults the same way. -/
theorem empty_location_layer_faults :
    allocate_campaign_id dbLocaEmpty = Except.error AgsError.nullArith
    ∧ ags_to_postgis demoRegistry idT demoDoc demoCfg dbLocaEmpty
        = Except.error AgsError.nullArith := by
  constructor
  · rfl
  · rfl

/-- Claim C4: campaign-identifier derivation — with no `loca` layer in the
destination the allocated identifier is 1; with a `loca` layer whose stored
maximum campaign identifier is `m`, the allocated identifier is `m + 1`.
(The allocation block runs on every import; see C1 for the fate of the
explicit parameter.) -/
theorem campaign_derivation (db : DBState) :
    (has_table db "loca" = false → allocate_campaign_id db = Except.ok 1)
    ∧ ∀ m : Int, has_table db "loca" = true →
        maxCampaignId (getRows db "loca") = some m →
        allocate_campaign_id db = Except.ok (m + 1) := by
  constructor
  · intro h
    unfold allocate_campaign_id
    rw [h]
    rfl
  · intro m h1 h2
    unfold allocate_campaign_id
    rw [h1, h2]
    rfl

/-- Witness for C4 at the spec's concrete examples: empty destination gives
1, a stored maximum of 7 gives 8. -/
theorem campaign_derivation_witness :
    allocate_campaign_id emptyDB = Except.ok 1
    ∧ allocate_campaign_id dbLoca7 = Except.ok 8 :=
  ⟨(campaign_derivation emptyDB).1 (by decide),
   (campaign_derivation dbLoca7).2 7 (by decide) (by decide)⟩

/-- Claim C10: stamping the campaign identifier overwrites any existing
(lower-cased) `campaign_id` column unconditionally — after the stamp, the
column reads as the import's identifier and every entry of that column
holds it, so no original value survives. -/
theorem campaign_stamp_overwrites (cid : Int) (r : Row) :
    lookupCol "campaign_id" (stampRow cid r) = some (Value.int cid)
    ∧ ((stampRow cid r).all
        fun p => p.1 != "campaign_id" || p.2 == Value.int cid) = true :=
  ⟨lookupCol_setCol_self "campaign_id" (Value.int cid) r,
   setCol_entries "campaign_id" (Value.int cid) r⟩

/-- Claim C3: when the target code, or a supplied source code, is not in the
reference-system registry, the import raises the invalid-reference-system
error before any other work: the result is that error, it does not depend on
the exchange document or on the destination state, and no destination state
is produced (no mutation occurs). -/
theorem invalid_epsg_fails_fast (registry : List String)
    (mkT : Int → Int → Point → Point)
    (doc altDoc : List (String × List Row)) (cfg : Config) (db altDb : DBState)
    (h : _is_epsg registry (some cfg.target_epsg) = false ∨
         ∃ s, cfg.source_epsg = some s ∧ _is_epsg registry (some s) = false) :
    (∃ c, _is_epsg registry c = false ∧
        ags_to_postgis registry mkT doc cfg db
          = Except.error (AgsError.invalidEpsg c))
    ∧ ags_to_postgis registry mkT doc cfg db
        = ags_to_postgis registry mkT altDoc cfg altDb := by
  rcases hs : cfg.source_epsg with _ | s
  · rcases h with ht | ⟨s, hs', _⟩
    · have key : ∀ (dc : List (String × List Row)) (dbx : DBState),
          ags_to_postgis registry mkT dc cfg dbx
            = Except.error (AgsError.invalidEpsg (some cfg.target_epsg)) := by
        intro dc dbx
        unfold ags_to_postgis
        rw [hs]
        simp [ht]
      exact ⟨⟨some cfg.target_epsg, ht, key doc db⟩,
        (key doc db).trans (key altDoc altDb).symm⟩
    · rw [hs] at hs'
      cases hs'
  · by_cases hse : _is_epsg registry (some s) = true
    · have ht : _is_epsg registry (some cfg.target_epsg) = false := by
        rcases h with ht | ⟨s', hs', hbad⟩
        · exact ht
        · rw [hs] at hs'
          have hss : s = s' := by
            cases hs'
            rfl
          rw [← hss] at hbad
          rw [hse] at hbad
          cases hbad
      have key : ∀ (dc : List (String × List Row)) (dbx : DBState),
          ags_to_postgis registry mkT dc cfg dbx
            = Except.error (AgsError.invalidEpsg (some cfg.target_epsg)) := by
        intro dc dbx
        unfold ags_to_postgis
        rw [hs]
        simp [hse, ht]
      exact ⟨⟨some cfg.target_epsg, ht, key doc db⟩,
        (key doc db).trans (key altDoc altDb).symm⟩
    · have hse' : _is_epsg registry (some s) = false := Bool.eq_false_iff.mpr hse
      have key : ∀ (dc : List (String × List Row)) (dbx : DBState),
          ags_to_postgis registry mkT dc cfg dbx
            = Except.error (AgsError.invalidEpsg (some s)) := by
        intro dc dbx
        unfold ags_to_postgis
        rw [hs]
        simp [hse']
      exact ⟨⟨some s, hse', key doc db⟩,
        (key doc db).trans (key altDoc altDb).symm⟩

/-- Witness for C3: an unrecognised target code 9999 fails with the
invalid-code error, identically across different documents and destination
states. -/
theorem invalid_epsg_fails_fast_witness :
    (∃ c, _is_epsg demoRegistry c = false ∧
        ags_to_postgis demoRegistry idT demoDoc ⟨9999, none, none⟩ emptyDB
          = Except.error (AgsError.invalidEpsg c))
    ∧ ags_to_postgis demoRegistry idT demoDoc ⟨9999, none, none⟩ emptyDB
        = ags_to_postgis demoRegistry idT [] ⟨9999, none, none⟩ dbLocaEmpty :=
  invalid_epsg_fails_fast demoRegistry idT demoDoc [] ⟨9999, none, none⟩
    emptyDB dbLocaEmpty (Or.inl (by decide))

/-- Claim C6: on any successful import the campaign identifier is the one
value resolved by the allocation step from the pre-import destination, and
every row written by the import — in the location table and in every
attribute table alike — carries exactly that value. -/
theorem single_campaign_id_per_import (registry : List String)
    (mkT : Int → Int → Point → Point) (doc : List (String × List Row))
    (cfg : Config) (db db' : DBState)
    (h : ags_to_postgis registry mkT doc cfg db = Except.ok db') :
    ∃ cid, allocate_campaign_id db = Except.ok cid ∧
      ∀ n, ∃ new, getRows db' n = getRows db n ++ new ∧
        ∀ r ∈ new, lookupCol "campaign_id" r = some (Value.int cid) := by
  unfold ags_to_postgis at h
  by_cases h1 : (!(_is_epsg registry cfg.source_epsg) && cfg.source_epsg.isSome) = true
  · rw [if_pos h1] at h
    cases h
  · rw [if_neg h1] at h
    by_cases h2 : (!(_is_epsg registry (some cfg.target_epsg))) = true
    · rw [if_pos h2] at h
      cases h
    · rw [if_neg h2] at h
      cases hc : allocate_campaign_id db with
      | error e => rw [hc] at h; cases h
      | ok cid =>
        rw [hc] at h
        exact ⟨cid, rfl, writeTables_ok _ cid doc db db' h⟩

/-- Witness for C6 at the concrete demo run. -/
theorem single_campaign_id_per_import_witness :
    ∃ cid, allocate_campaign_id emptyDB = Except.ok cid ∧
      ∀ n, ∃ new, getRows demoOut n = getRows emptyDB n ++ new ∧
        ∀ r ∈ new, lookupCol "campaign_id" r = some (Value.int cid) :=
  single_campaign_id_per_import demoRegistry idT demoDoc demoCfg emptyDB
    demoOut (by decide)

/-- Claim C8: every successful import only appends: for every destination
table, the rows stored before the import remain in place as a prefix and
only new rows are added after them; no table is replaced or truncated. -/
theorem append_only_writes (registry : List String)
    (mkT : Int → Int → Point → Point) (doc : List (String × List Row))
    (cfg : Config) (db db' : DBState)
    (h : ags_to_postgis registry mkT doc cfg db = Except.ok db') :
    ∀ n, ∃ new, getRows db' n = getRows db n ++ new := by
  intro n
  unfold ags_to_postgis at h
  by_cases h1 : (!(_is_epsg registry cfg.source_epsg) && cfg.source_epsg.isSome) = true
  · rw [if_pos h1] at h
    cases h
  · rw [if_neg h1] at h
    by_cases h2 : (!(_is_epsg registry (some cfg.target_epsg))) = true
    · rw [if_pos h2] at h
      cases h
    · rw [if_neg h2] at h
      cases hc : allocate_campaign_id db with
      | error e => rw [hc] at h; cases h
      | ok cid =>
        rw [hc] at h
        obtain ⟨new, e, _⟩ := writeTables_ok _ cid doc db db' h n
        exact ⟨new, e⟩

/-- Witness for C8: importing into a destination whose `loca` table already
holds a row leaves that row in place as a prefix. -/
theorem append_only_writes_witness :
    ∃ new, getRows demoOut7 "loca" = getRows dbLoca7 "loca" ++ new :=
  append_only_writes demoRegistry idT demoDoc demoCfg dbLoca7 demoOut7
    (by decide) "loca"

/-- Claim C5: each location-row geometry is built as `(x, y + 10000)` — the
offset is applied to every row, only to the Y coordinate, with X taken
unchanged from the row's `loca_locx` column; the reprojector (when one
exists) is applied to the already-offset points, i.e. the offset precedes
any reprojection, and the identity case applies them as they are. -/
theorem loca_offset_before_reprojection (cid : Int) (tbl : List Row)
    (pts : List Point)
    (h : buildPoints (normalizeAndStamp cid tbl) = some pts) :
    (∀ (i : Nat) (r : Row) (x y : Coord),
        (normalizeAndStamp cid tbl)[i]? = some r →
        getNum "loca_locx" r = some x → getNum "loca_locy" r = some y →
        pts[i]? = some (x, y + 10000))
    ∧ (∀ (repro : Option (Point → Point)) (db : DBState),
        writeOne repro cid "LOCA" tbl db
          = Except.ok (dbAppend db "loca"
              (attachGeom (normalizeAndStamp cid tbl)
                (applyReprojector repro pts))))
    ∧ (∀ tr : Point → Point, applyReprojector (some tr) pts = pts.map tr)
    ∧ applyReprojector none pts = pts := by
  refine ⟨buildPoints_get _ _ h, ?_, fun tr => rfl, rfl⟩
  intro repro db
  unfold writeOne
  rw [if_pos (by decide : (("LOCA" : String) == "LOCA") = true)]
  rw [h]
  have hlow : strLower "LOCA" = "loca" := by decide
  rw [hlow]

/-- Witness for C5: the demo LOCA row (100, 200) yields the point
(100, 10200), and the concrete single-table write stores exactly the
offset points. -/
theorem loca_offset_before_reprojection_witness :
    ([((100 : Coord), (10200 : Coord))][0]? = some (100, 200 + 10000))
    ∧ writeOne none 1 "LOCA" demoLocaTbl emptyDB
        = Except.ok (dbAppend emptyDB "loca"
            (attachGeom (normalizeAndStamp 1 demoLocaTbl)
              (applyReprojector none [(100, 10200)]))) :=
  ⟨(loca_offset_before_reprojection 1 demoLocaTbl [(100, 10200)] (by decide)).1
      0 [("loca_locx", Value.num 100), ("loca_locy", Value.num 200),
         ("campaign_id", Value.int 1)] 100 200
      (by decide) (by decide) (by decide),
   (loca_offset_before_reprojection 1 demoLocaTbl [(100, 10200)]
      (by decide)).2.1 none emptyDB⟩

/-- Claim C7: when the supplied source code equals the target code no
reprojector is constructed, and the whole import behaves identically to
the import with no source code at all; a reprojector exists only when a source
code is present and differs from the target. -/
theorem same_source_target_is_identity (registry : List String)
    (mkT : Int → Int → Point → Point) (doc : List (String × List Row))
    (cfg : Config) (db : DBState) (t : Int) :
    mkReprojector mkT (some t) t = none
    ∧ (∀ s : Int, (mkReprojector mkT (some s) t).isSome = (s != t))
    ∧ mkReprojector mkT none t = none
    ∧ ags_to_postgis registry mkT doc
        { cfg with source_epsg := some t, target_epsg := t } db
      = ags_to_postgis registry mkT doc
          { cfg with source_epsg := none, target_epsg := t } db := by
  refine ⟨by simp [mkReprojector], ?_, rfl, ?_⟩
  · intro s
    by_cases hs : (s == t) = true
    · simp [mkReprojector, hs, bne]
    · have hs' : (s == t) = false := Bool.eq_false_iff.mpr hs
      simp [mkReprojector, hs', bne]
  · unfold ags_to_postgis
    by_cases h : _is_epsg registry (some t) = true
    · simp [h, mkReprojector]
    · have h' : _is_epsg registry (some t) = false := Bool.eq_false_iff.mpr h
      simp [h']

/-- Claim C9: the location table is selected by a case-sensitive exact match
on the key `"LOCA"`: a table under any other key — including `"loca"` or
`"Loca"` — is appended as a plain attribute table (no geometry is built,
the write cannot fail on coordinates) under its lower-cased name. -/
theorem non_loca_written_plain (repro : Option (Point → Point)) (cid : Int)
    (key : String) (tbl : List Row) (db : DBState) (h : key ≠ "LOCA") :
    writeOne repro cid key tbl db
      = Except.ok (dbAppend db (strLower key) (normalizeAndStamp cid tbl)) := by
  unfold writeOne
  rw [if_neg (show ¬((key == "LOCA") = true) from fun hc => h (by simpa using hc))]

/-- Witness for C9: a lower-cased `"loca"` key is NOT the location table and
is written plainly. -/
theorem non_loca_written_plain_witness :
    writeOne none 5 "loca" [[("A", Value.text "v")]] emptyDB
      = Except.ok (dbAppend emptyDB "loca"
          (normalizeAndStamp 5 [[("A", Value.text "v")]])) :=
  non_loca_written_plain none 5 "loca" [[("A", Value.text "v")]] emptyDB
    (by decide)

end AgsToPostgis
